import Mathlib

/-!
LookingGlass EGL texture streaming

A shallow embedding of `client/renderers/EGL/texture.c` (the `EGL_Texture`
object of the Looking Glass client) and of the one call site in
`client/renderers/egl/alert.c`, followed by the properties of the texture
streaming pipeline that the specification states.

Modelling conventions

* `size_t`, `GLintptr`, `GLuint` and `int` quantities are natural numbers.  The
  fields only ever hold frame dimensions, byte counts, object names and the
  counters `textureCount` (0, 1 or 3) and `pboIndex` (0 or 1); arithmetic is the
  exact arithmetic of the source as long as `stride * height * 3 / 2` fits the
  machine word, which is the case for every frame a capture source delivers.
* The fixed-size arrays of the struct are total functions on indices; the
  zero-initialised struct holds `0` (or `NULL`) in every cell.
* The OpenGL driver is an external collaborator.  It is modelled by
  `GLContext`: a supply of fresh object names and the ordered log of the calls
  issued.  Every call is taken to succeed.
* A persistently mapped transfer buffer is the list of its bytes; `NULL` is
  `none`.  `memcpy` through `NULL`, through a cell outside `pboMap[2]` or past
  the end of the mapping is undefined in C and is `none` in the model.
-/

namespace EGL

/-! ## Data model -/

abbrev GLuint := Nat

abbrev uint8_t := Nat

/-- Modelled from the spec: `enum EGL_PixelFormat` is declared in `texture.h`,
which is not among the sources.  The four named tags are the ones the switch
of `egl_texture_setup` names (the spec's PackedRGBA, PackedBGRA, PackedRGBA10
and PlanarYUV420); `unknown` stands for every other value of the enum's
integer type, which the switch sends to its `default` label. -/
inductive EGL_PixelFormat
  | EGL_PF_RGBA
  | EGL_PF_BGRA
  | EGL_PF_RGBA10
  | EGL_PF_YUV420
  | unknown (tag : Nat)
  deriving DecidableEq, Repr

/-- The OpenGL enumerants the texture stores in `intFormat`, `format` and
`dataType`; `zero` is the value the `memset` of `egl_texture_init` leaves. -/
inductive GLenum
  | zero
  | GL_BGRA
  | GL_RGBA
  | GL_RED
  | GL_RGB10_A2
  | GL_UNSIGNED_BYTE
  | GL_UNSIGNED_INT_2_10_10_10_REV
  deriving DecidableEq, Repr

inductive SamplerParam
  | GL_TEXTURE_MIN_FILTER
  | GL_TEXTURE_MAG_FILTER
  | GL_TEXTURE_WRAP_S
  | GL_TEXTURE_WRAP_T
  deriving DecidableEq, Repr

inductive SamplerValue
  | GL_LINEAR
  | GL_CLAMP_TO_EDGE
  deriving DecidableEq, Repr

/-- The `pixels` argument of `glTexImage2D` / `glTexSubImage2D`: `NULL`, a
pointer `buffer + offset` into the caller's frame, or a byte offset into the
pixel-unpack buffer that is bound at the time of the call. -/
inductive PixelData
  | null
  | client (offset : Nat)
  | unpackBuffer (offset : Nat)
  deriving DecidableEq, Repr

/-- One OpenGL call with the arguments that vary in `texture.c`; the arguments
that are the same constant at every call site (target `GL_TEXTURE_2D` or
`GL_PIXEL_UNPACK_BUFFER`, level 0, offsets 0, border 0, the storage and mapping
flags) are part of the constructor. -/
inductive GLCall
  | glDeleteTextures (n : Nat) (names : List GLuint)
  | glDeleteSamplers (n : Nat) (names : List GLuint)
  | glGenTextures (n : Nat) (names : List GLuint)
  | glGenSamplers (n : Nat) (names : List GLuint)
  | glSamplerParameteri (sampler : GLuint) (pname : SamplerParam) (param : SamplerValue)
  | glBindTexture (texture : GLuint)
  | glTexImage2D (internalformat : GLenum) (width height : Nat) (format dataType : GLenum)
      (pixels : PixelData)
  | glTexSubImage2D (width height : Nat) (format dataType : GLenum) (pixels : PixelData)
  | glPixelStorei_UNPACK_ROW_LENGTH (param : Nat)
  | glBindBuffer (buffer : GLuint)
  | glUnmapBuffer
  | glDeleteBuffers (n : Nat) (names : List GLuint)
  | glGenBuffers (n : Nat) (names : List GLuint)
  | glBufferStorage (size : Nat)
  | glMapBufferRange (length : Nat)
  | glActiveTexture (unit : Nat)
  | glBindSampler (unit : Nat) (sampler : GLuint)
  deriving DecidableEq, Repr

/-- The OpenGL context as far as `texture.c` observes it: how many object names
it has handed out, and the calls received so far, oldest first. -/
structure GLContext where
  names : Nat
  calls : List GLCall
  deriving DecidableEq, Repr

/-- Issue one call. -/
def GLContext.call (gl : GLContext) (c : GLCall) : GLContext :=
  { gl with calls := gl.calls ++ [c] }

/-- The `k`-th name a `glGen*` call made now would return. -/
def GLContext.fresh (gl : GLContext) (k : Nat) : GLuint :=
  gl.names + 1 + k

/-- The first `n` cells of an array, as `glDelete*` and `glGen*` see them. -/
def cells (a : Nat → GLuint) (n : Nat) : List GLuint :=
  (List.range n).map a

/-- The array after a `glGen*(n, a)` call: cells `0 .. n-1` hold fresh names. -/
def genInto (gl : GLContext) (a : Nat → GLuint) (n : Nat) : Nat → GLuint :=
  fun i => if i < n then gl.fresh i else a i

/-- The context after a `glGen*` call that handed out `n` names and was
logged as `c`. -/
def GLContext.gen (gl : GLContext) (n : Nat) (c : GLCall) : GLContext :=
  { names := gl.names + n, calls := gl.calls ++ [c] }

/-- Assignment `a[i] = v`. -/
def set1 {α : Type} (a : Nat → α) (i : Nat) (v : α) : Nat → α :=
  fun k => if k = i then v else a k

/-- Assignment `a[i][j] = v`. -/
def set2 {α : Type} (a : Nat → Nat → α) (i j : Nat) (v : α) : Nat → Nat → α :=
  fun k l => if k = i then (if l = j then v else a k l) else a k l

/-- A counted loop `for (int i = 0; i < n; ++i) body`. -/
def forLoop {σ : Type} (n : Nat) (body : σ → Nat → σ) (s : σ) : σ :=
  (List.range n).foldl body s

/-- The `struct EGL_Texture` of `texture.c`, field for field. -/
structure EGL_Texture where
  pixFmt : EGL_PixelFormat
  width : Nat
  height : Nat
  streaming : Bool
  textureCount : Nat
  textures : Nat → GLuint
  samplers : Nat → GLuint
  planes : Nat → Nat → Nat
  offsets : Nat → Nat
  intFormat : GLenum
  format : GLenum
  dataType : GLenum
  hasPBO : Bool
  pbo : Nat → GLuint
  pboIndex : Nat
  needsUpdate : Bool
  pboBufferSize : Nat
  pboMap : Nat → Option (List uint8_t)

/-- What a call returns: the C return value, the struct and the OpenGL context
after the call. -/
structure Outcome where
  ret : Bool
  texture : EGL_Texture
  gl : GLContext

/-! ## `egl_texture_init` -/

/-- The struct after `memset(*texture, 0, sizeof(EGL_Texture))`.  The enum
value `0` is whichever tag `texture.h` numbers first; it is the parameter
`zeroTag`. -/
def zeroed (zeroTag : EGL_PixelFormat) : EGL_Texture where
  pixFmt := zeroTag
  width := 0
  height := 0
  streaming := false
  textureCount := 0
  textures := fun _ => 0
  samplers := fun _ => 0
  planes := fun _ _ => 0
  offsets := fun _ => 0
  intFormat := .zero
  format := .zero
  dataType := .zero
  hasPBO := false
  pbo := fun _ => 0
  pboIndex := 0
  needsUpdate := false
  pboBufferSize := 0
  pboMap := fun _ => none

/-- The function `egl_texture_init`: `none` when `malloc` fails (the function
returns `false`), the zeroed struct otherwise. -/
def egl_texture_init (zeroTag : EGL_PixelFormat) (mallocOk : Bool) : Option EGL_Texture :=
  if mallocOk then some (zeroed zeroTag) else none

/-! ## `egl_texture_free` -/

/-- The function `egl_texture_free` (lines 67-91): a `NULL` handle is left
alone; otherwise the textures and samplers held are deleted, the transfer
buffers are unmapped and deleted, and the handle becomes `NULL`. -/
def egl_texture_free (texture : Option EGL_Texture) (gl : GLContext) :
    Option EGL_Texture × GLContext :=
  match texture with
  | none => (none, gl)
  | some t =>
    let gl :=
      if t.textureCount > 0 then
        (gl.call (.glDeleteTextures t.textureCount (cells t.textures t.textureCount))).call
          (.glDeleteSamplers t.textureCount (cells t.samplers t.textureCount))
      else gl
    let gl :=
      if t.hasPBO then
        let gl := forLoop 2
          (fun gl i => (gl.call (.glBindBuffer (t.pbo i))).call .glUnmapBuffer) gl
        let gl := gl.call (.glBindBuffer 0)
        gl.call (.glDeleteBuffers 2 (cells t.pbo 2))
      else gl
    (none, gl)

/-! ## `egl_texture_setup` -/

/-- The `switch (pixFmt)` of `egl_texture_setup` (lines 102-162): the value of
the local `textureCount` and the struct after the case's assignments, or `none`
at the `default` label. -/
def egl_texture_setup_switch (texture : EGL_Texture) (pixFmt : EGL_PixelFormat)
    (width height stride : Nat) : Option (Nat × EGL_Texture) :=
  match pixFmt with
  | .EGL_PF_BGRA =>
    let planes := set2 texture.planes 0 0 width
    let planes := set2 planes 0 1 height
    let planes := set2 planes 0 2 (stride / 4)
    let offsets := set1 texture.offsets 0 0
    some (1, { texture with
      format := .GL_BGRA
      planes := planes
      offsets := offsets
      intFormat := .GL_BGRA
      dataType := .GL_UNSIGNED_BYTE
      pboBufferSize := height * stride })
  | .EGL_PF_RGBA =>
    let planes := set2 texture.planes 0 0 width
    let planes := set2 planes 0 1 height
    let planes := set2 planes 0 2 (stride / 4)
    let offsets := set1 texture.offsets 0 0
    some (1, { texture with
      format := .GL_RGBA
      planes := planes
      offsets := offsets
      intFormat := .GL_BGRA
      dataType := .GL_UNSIGNED_BYTE
      pboBufferSize := height * stride })
  | .EGL_PF_RGBA10 =>
    let planes := set2 texture.planes 0 0 width
    let planes := set2 planes 0 1 height
    let planes := set2 planes 0 2 (stride / 4)
    let offsets := set1 texture.offsets 0 0
    some (1, { texture with
      format := .GL_RGBA
      planes := planes
      offsets := offsets
      intFormat := .GL_RGB10_A2
      dataType := .GL_UNSIGNED_INT_2_10_10_10_REV
      pboBufferSize := height * stride })
  | .EGL_PF_YUV420 =>
    let planes := set2 texture.planes 0 0 width
    let planes := set2 planes 0 1 height
    let planes := set2 planes 0 2 stride
    let planes := set2 planes 1 0 (width / 2)
    let planes := set2 planes 1 1 (height / 2)
    let planes := set2 planes 1 2 (stride / 2)
    let planes := set2 planes 2 0 (width / 2)
    let planes := set2 planes 2 1 (height / 2)
    let planes := set2 planes 2 2 (stride / 2)
    let offsets := set1 texture.offsets 0 0
    let offsets := set1 offsets 1 (stride * height)
    let offsets := set1 offsets 2 (offsets 1 + offsets 1 / 4)
    some (3, { texture with
      format := .GL_RED
      planes := planes
      offsets := offsets
      dataType := .GL_UNSIGNED_BYTE
      pboBufferSize := offsets 2 + offsets 1 / 4 })
  | .unknown _ => none

/-- Lines 164-175 of `egl_texture_setup`: when the plane count of the new
format exceeds the number of allocated objects, delete the old textures and
samplers (if any) and generate `textureCount` new ones. -/
def setup_objects (texture : EGL_Texture) (gl : GLContext) (textureCount : Nat) :
    EGL_Texture × GLContext :=
  if textureCount > texture.textureCount then
    let gl :=
      if texture.textureCount > 0 then
        (gl.call (.glDeleteTextures texture.textureCount
            (cells texture.textures texture.textureCount))).call
          (.glDeleteSamplers texture.textureCount (cells texture.samplers texture.textureCount))
      else gl
    let texture := { texture with textureCount := textureCount }
    let textures := genInto gl texture.textures texture.textureCount
    let gl := gl.gen texture.textureCount
      (.glGenTextures texture.textureCount (cells textures texture.textureCount))
    let samplers := genInto gl texture.samplers texture.textureCount
    let gl := gl.gen texture.textureCount
      (.glGenSamplers texture.textureCount (cells samplers texture.textureCount))
    ({ texture with textures := textures, samplers := samplers }, gl)
  else (texture, gl)

/-- Body of the loop at lines 177-187 for plane `i`: sampler state and storage
allocation. -/
def setup_plane (texture : EGL_Texture) (gl : GLContext) (i : Nat) : GLContext :=
  let gl := gl.call (.glSamplerParameteri (texture.samplers i) .GL_TEXTURE_MIN_FILTER .GL_LINEAR)
  let gl := gl.call (.glSamplerParameteri (texture.samplers i) .GL_TEXTURE_MAG_FILTER .GL_LINEAR)
  let gl := gl.call
    (.glSamplerParameteri (texture.samplers i) .GL_TEXTURE_WRAP_S .GL_CLAMP_TO_EDGE)
  let gl := gl.call
    (.glSamplerParameteri (texture.samplers i) .GL_TEXTURE_WRAP_T .GL_CLAMP_TO_EDGE)
  let gl := gl.call (.glBindTexture (texture.textures i))
  gl.call (.glTexImage2D texture.intFormat (texture.planes i 0) (texture.planes i 1)
    texture.format texture.dataType .null)

/-- Lines 192-201: unmap and delete the two transfer buffers of the previous
configuration. -/
def release_pbo (texture : EGL_Texture) (gl : GLContext) : GLContext :=
  let gl := forLoop 2
    (fun gl i => (gl.call (.glBindBuffer (texture.pbo i))).call .glUnmapBuffer) gl
  gl.call (.glDeleteBuffers 2 (cells texture.pbo 2))

/-- Body of the loop at lines 205-226 for slot `i`: allocate the storage of
`pboBufferSize` bytes and keep it mapped.  The mapping's initial bytes are
unspecified by OpenGL; they are taken as zero. -/
def setup_slot (s : EGL_Texture × GLContext) (i : Nat) : EGL_Texture × GLContext :=
  let texture := s.1
  let gl := s.2.call (.glBindBuffer (texture.pbo i))
  let gl := gl.call (.glBufferStorage texture.pboBufferSize)
  let gl := gl.call (.glMapBufferRange texture.pboBufferSize)
  ({ texture with
      pboMap := set1 texture.pboMap i (some (List.replicate texture.pboBufferSize 0)) }, gl)

/-- Lines 190-228: the streaming branch of `egl_texture_setup`. -/
def setup_streaming (texture : EGL_Texture) (gl : GLContext) : EGL_Texture × GLContext :=
  let gl := if texture.hasPBO then release_pbo texture gl else gl
  let pbo := genInto gl texture.pbo 2
  let gl := gl.gen 2 (.glGenBuffers 2 (cells pbo 2))
  let texture := { texture with pbo := pbo, hasPBO := true }
  let s := forLoop 2 setup_slot (texture, gl)
  (s.1, s.2.call (.glBindBuffer 0))

/-- The function `egl_texture_setup` (lines 93-231). -/
def egl_texture_setup (texture : EGL_Texture) (gl : GLContext) (pixFmt : EGL_PixelFormat)
    (width height stride : Nat) (streaming : Bool) : Outcome :=
  let texture := { texture with
    pixFmt := pixFmt, width := width, height := height, streaming := streaming }
  match egl_texture_setup_switch texture pixFmt width height stride with
  | none => { ret := false, texture := texture, gl := gl }
  | some (textureCount, texture) =>
    let s := setup_objects texture gl textureCount
    let texture := s.1
    let gl := forLoop textureCount (setup_plane texture) s.2
    let gl := gl.call (.glBindTexture 0)
    let s := if streaming then setup_streaming texture gl else (texture, gl)
    { ret := true, texture := s.1, gl := s.2 }

/-! ## `egl_texture_update` -/

/-- The call `memcpy(dst, buffer, n)` into a mapped region: the first `n` bytes
of the region become `buffer[0 .. n-1]`.  Undefined (`none`) when `dst` is
`NULL` or the mapping is shorter than `n` bytes.  The source pointer is the
caller's memory, `buffer k` being the byte at `buffer + k`. -/
def memcpy (dst : Option (List uint8_t)) (buffer : Nat → uint8_t) (n : Nat) :
    Option (List uint8_t) :=
  match dst with
  | none => none
  | some m => if n ≤ m.length then some ((List.range n).map buffer ++ m.drop n) else none

/-- Body of the loop at lines 253-259 for texture `i`: the direct upload of the
non-streaming path. -/
def update_plane (texture : EGL_Texture) (gl : GLContext) (i : Nat) : GLContext :=
  let gl := gl.call (.glBindTexture (texture.textures i))
  let gl := gl.call (.glPixelStorei_UNPACK_ROW_LENGTH (texture.planes i 0))
  gl.call (.glTexSubImage2D (texture.planes i 0) (texture.planes i 1)
    texture.format texture.dataType (.client (texture.offsets i)))

/-- The function `egl_texture_update` (lines 233-263).  `none` is undefined
behaviour of the `memcpy` at line 247 (see `memcpy`; a `pboIndex` outside the
two cells of `pboMap` reads no mapping). -/
def egl_texture_update (texture : EGL_Texture) (gl : GLContext) (buffer : Nat → uint8_t) :
    Option Outcome :=
  if texture.streaming then
    if texture.needsUpdate then
      some { ret := false, texture := texture, gl := gl }
    else
      let texture := { texture with pboIndex := texture.pboIndex + 1 }
      let texture :=
        if texture.pboIndex = 2 then { texture with pboIndex := 0 } else texture
      let dst := if texture.pboIndex < 2 then texture.pboMap texture.pboIndex else none
      match memcpy dst buffer texture.pboBufferSize with
      | none => none
      | some m =>
        some { ret := true
               texture := { texture with
                 pboMap := set1 texture.pboMap texture.pboIndex (some m)
                 needsUpdate := true }
               gl := gl }
  else
    let gl := forLoop texture.textureCount (update_plane texture) gl
    let gl := gl.call (.glBindTexture 0)
    some { ret := true, texture := texture, gl := gl }

/-! ## `egl_texture_bind` and `egl_texture_count` -/

/-- Body of the loop at lines 270-276 for texture `i`: the upload from the
bound transfer buffer. -/
def flush_plane (texture : EGL_Texture) (gl : GLContext) (i : Nat) : GLContext :=
  let gl := gl.call (.glBindTexture (texture.textures i))
  let gl := gl.call (.glPixelStorei_UNPACK_ROW_LENGTH (texture.planes i 2))
  gl.call (.glTexSubImage2D (texture.planes i 0) (texture.planes i 1)
    texture.format texture.dataType (.unpackBuffer (texture.offsets i)))

/-- Body of the loop at lines 283-288 for texture `i`. -/
def bind_plane (texture : EGL_Texture) (gl : GLContext) (i : Nat) : GLContext :=
  let gl := gl.call (.glActiveTexture i)
  let gl := gl.call (.glBindTexture (texture.textures i))
  gl.call (.glBindSampler i (texture.samplers i))

/-- The function `egl_texture_bind` (lines 265-289). -/
def egl_texture_bind (texture : EGL_Texture) (gl : GLContext) : EGL_Texture × GLContext :=
  let s :=
    if texture.streaming && texture.needsUpdate then
      let gl := gl.call (.glBindBuffer (texture.pbo texture.pboIndex))
      let gl := forLoop texture.textureCount (flush_plane texture) gl
      let gl := gl.call (.glBindBuffer 0)
      let gl := gl.call (.glBindTexture 0)
      ({ texture with needsUpdate := false }, gl)
    else (texture, gl)
  (s.1, forLoop s.1.textureCount (bind_plane s.1) s.2)

/-- The function `egl_texture_count` (lines 291-294). -/
def egl_texture_count (texture : EGL_Texture) : Nat :=
  texture.textureCount

/-! ## The call site in `egl_alert_render` -/

/-- The fields of `LG_FontBitmap` that `egl_alert_render` reads; the struct is
declared in the font interface, outside the sources at hand. -/
structure LG_FontBitmap where
  width : Nat
  height : Nat
  bpp : Nat
  pixels : Nat → uint8_t

/-- Lines 217-226 of `egl_alert_render` in `alert.c`: the alert texture is set
up for the rendered bitmap as non-streaming BGRA with a tight stride, and the
bitmap is uploaded at once. -/
def egl_alert_render_upload (texture : EGL_Texture) (gl : GLContext) (bmp : LG_FontBitmap) :
    Option Outcome :=
  let r := egl_texture_setup texture gl .EGL_PF_BGRA bmp.width bmp.height
    (bmp.width * bmp.bpp) false
  egl_texture_update r.texture r.gl bmp.pixels

/-! ## Sequences of calls on one instance -/

/-- One call of the public interface on an existing instance. -/
inductive Call
  | setup (pixFmt : EGL_PixelFormat) (width height stride : Nat) (streaming : Bool)
  | update (buffer : Nat → uint8_t)
  | bind

/-- The instance and the context after one call; `none` when the call has
undefined behaviour. -/
def step (s : EGL_Texture × GLContext) : Call → Option (EGL_Texture × GLContext)
  | .setup pixFmt width height stride streaming =>
    let r := egl_texture_setup s.1 s.2 pixFmt width height stride streaming
    some (r.texture, r.gl)
  | .update buffer =>
    match egl_texture_update s.1 s.2 buffer with
    | none => none
    | some r => some (r.texture, r.gl)
  | .bind => some (egl_texture_bind s.1 s.2)

/-- The instance and the context after a sequence of calls. -/
def run (s : EGL_Texture × GLContext) : List Call → Option (EGL_Texture × GLContext)
  | [] => some s
  | c :: cs =>
    match step s c with
    | none => none
    | some s' => run s' cs

/-! ## Vocabulary of the specification -/

/-- The format is one of the four the switch of `egl_texture_setup` handles. -/
def supported : EGL_PixelFormat → Bool
  | .unknown _ => false
  | _ => true

/-- Plane count of a format as the specification gives it: 1 for the packed
formats, 3 for YUV420. -/
def planeCount : EGL_PixelFormat → Nat
  | .EGL_PF_YUV420 => 3
  | .unknown _ => 0
  | _ => 1

/-- The calls a step issued: those in the log `after` beyond the log `before`. -/
def issued (before after : GLContext) : List GLCall :=
  after.calls.drop before.calls.length

/-- Slot `i` of the transfer pool is mapped with room for one frame. -/
def slotMapped (t : EGL_Texture) (i : Nat) : Bool :=
  match t.pboMap i with
  | none => false
  | some m => decide (t.pboBufferSize ≤ m.length)

/-- The instance is configured for streaming: the mode flag is set, both
transfer slots are mapped with room for a frame, and `pboIndex` names one of
them. -/
def streamingConfigured (t : EGL_Texture) : Prop :=
  t.streaming = true ∧ t.pboIndex < 2 ∧ slotMapped t 0 = true ∧ slotMapped t 1 = true

instance (t : EGL_Texture) : Decidable (streamingConfigured t) := by
  unfold streamingConfigured; infer_instance

/-- The bytes of one frame read through the pointer `buffer`. -/
def frame (buffer : Nat → uint8_t) (n : Nat) : List uint8_t :=
  (List.range n).map buffer

/-- The struct a call of `egl_texture_setup` leaves behind. -/
abbrev configured (texture : EGL_Texture) (gl : GLContext) (pixFmt : EGL_PixelFormat)
    (width height stride : Nat) (streaming : Bool) : EGL_Texture :=
  (egl_texture_setup texture gl pixFmt width height stride streaming).texture

/-- The call deletes or generates texture or sampler objects. -/
def GLCall.reallocates : GLCall → Bool
  | .glDeleteTextures _ _ => true
  | .glDeleteSamplers _ _ => true
  | .glGenTextures _ _ => true
  | .glGenSamplers _ _ => true
  | _ => false

/-! ## Concrete instances -/

/-- A context that has handed out no name and received no call. -/
def gl0 : GLContext :=
  { names := 0, calls := [] }

/-- A frame whose byte `k` is `k + 1`. -/
def rampA : Nat → uint8_t :=
  fun k => k + 1

/-- A frame whose byte `k` is `k + 101`. -/
def rampB : Nat → uint8_t :=
  fun k => k + 101

/-- A fresh instance set up for BGRA, 2 x 1 with stride 8, not streaming: it
holds one texture and one sampler. -/
def plainBGRA : Outcome :=
  egl_texture_setup (zeroed .EGL_PF_RGBA) gl0 .EGL_PF_BGRA 2 1 8 false

/-- A fresh instance set up for YUV420, 4 x 4 with stride 4, not streaming: it
holds three textures and three samplers. -/
def plainYUV : Outcome :=
  egl_texture_setup (zeroed .EGL_PF_RGBA) gl0 .EGL_PF_YUV420 4 4 4 false

/-- A fresh instance set up for BGRA, 2 x 2 with a padded stride of 16 bytes
(4 texels a row), not streaming. -/
def paddedBGRA : Outcome :=
  egl_texture_setup (zeroed .EGL_PF_RGBA) gl0 .EGL_PF_BGRA 2 2 16 false

/-- The instance `plainYUV` set up again, for BGRA 2 x 1 with stride 8. -/
def yuvThenBGRA : Outcome :=
  egl_texture_setup plainYUV.texture plainYUV.gl .EGL_PF_BGRA 2 1 8 false

/-- The instance `plainBGRA` after a setup call with an unknown format tag
that asks for 640 x 480, stride 2560, streaming. -/
def rejectedSetup : Outcome :=
  egl_texture_setup plainBGRA.texture plainBGRA.gl (.unknown 99) 640 480 2560 true

/-- A fresh instance set up for streaming BGRA, 2 x 1 with stride 8. -/
def streamingBGRA : Outcome :=
  egl_texture_setup (zeroed .EGL_PF_RGBA) gl0 .EGL_PF_BGRA 2 1 8 true

/-! ## Structure of `egl_texture_setup` -/

/-- The struct as the switch of `egl_texture_setup` receives it: the four
assignments of lines 97-100 are done. -/
def entered (t : EGL_Texture) (pixFmt : EGL_PixelFormat) (width height : Nat)
    (streaming : Bool) : EGL_Texture :=
  { t with pixFmt := pixFmt, width := width, height := height, streaming := streaming }

theorem setup_objects_fields (t : EGL_Texture) (gl : GLContext) (n : Nat) :
    (setup_objects t gl n).1.planes = t.planes ∧
    (setup_objects t gl n).1.offsets = t.offsets ∧
    (setup_objects t gl n).1.pboBufferSize = t.pboBufferSize ∧
    (setup_objects t gl n).1.streaming = t.streaming ∧
    (setup_objects t gl n).1.needsUpdate = t.needsUpdate ∧
    (setup_objects t gl n).1.pboIndex = t.pboIndex ∧
    (setup_objects t gl n).1.pboMap = t.pboMap ∧
    (setup_objects t gl n).1.hasPBO = t.hasPBO ∧
    (setup_objects t gl n).1.pbo = t.pbo ∧
    (setup_objects t gl n).1.textureCount = max n t.textureCount := by
  unfold setup_objects
  split
  · refine ⟨rfl, rfl, rfl, rfl, rfl, rfl, rfl, rfl, rfl, ?_⟩
    simp only []
    omega
  · refine ⟨rfl, rfl, rfl, rfl, rfl, rfl, rfl, rfl, rfl, ?_⟩
    simp only []
    omega

theorem setup_streaming_fields (t : EGL_Texture) (gl : GLContext) :
    (setup_streaming t gl).1.planes = t.planes ∧
    (setup_streaming t gl).1.offsets = t.offsets ∧
    (setup_streaming t gl).1.pboBufferSize = t.pboBufferSize ∧
    (setup_streaming t gl).1.streaming = t.streaming ∧
    (setup_streaming t gl).1.needsUpdate = t.needsUpdate ∧
    (setup_streaming t gl).1.pboIndex = t.pboIndex ∧
    (setup_streaming t gl).1.textureCount = t.textureCount ∧
    (setup_streaming t gl).1.textures = t.textures ∧
    (setup_streaming t gl).1.samplers = t.samplers ∧
    (setup_streaming t gl).1.hasPBO = true ∧
    (setup_streaming t gl).1.pboMap 0 = some (List.replicate t.pboBufferSize 0) ∧
    (setup_streaming t gl).1.pboMap 1 = some (List.replicate t.pboBufferSize 0) :=
  ⟨rfl, rfl, rfl, rfl, rfl, rfl, rfl, rfl, rfl, rfl, rfl, rfl⟩

/-- On a format the switch handles, `egl_texture_setup` returns `true`; the
layout fields are those the switch stored, the mode flag is the argument, the
object count is the larger of the old count and the plane count, and the
update state (`needsUpdate`, `pboIndex`) is not touched. -/
theorem setup_fields (t : EGL_Texture) (gl : GLContext) (fmt : EGL_PixelFormat)
    (w h s : Nat) (str : Bool) (n : Nat) (t1 : EGL_Texture)
    (hsw : egl_texture_setup_switch (entered t fmt w h str) fmt w h s = some (n, t1)) :
    (egl_texture_setup t gl fmt w h s str).ret = true ∧
    (egl_texture_setup t gl fmt w h s str).texture.planes = t1.planes ∧
    (egl_texture_setup t gl fmt w h s str).texture.offsets = t1.offsets ∧
    (egl_texture_setup t gl fmt w h s str).texture.pboBufferSize = t1.pboBufferSize ∧
    (egl_texture_setup t gl fmt w h s str).texture.streaming = t1.streaming ∧
    (egl_texture_setup t gl fmt w h s str).texture.needsUpdate = t1.needsUpdate ∧
    (egl_texture_setup t gl fmt w h s str).texture.pboIndex = t1.pboIndex ∧
    (egl_texture_setup t gl fmt w h s str).texture.textureCount = max n t1.textureCount := by
  unfold entered at hsw
  unfold egl_texture_setup
  simp only [hsw]
  cases str
  · obtain ⟨h1, h2, h3, h4, h5, h6, _, _, _, h10⟩ := setup_objects_fields t1 gl n
    exact ⟨trivial, h1, h2, h3, h4, h5, h6, h10⟩
  · have ho := setup_objects_fields t1 gl n
    have hs := setup_streaming_fields (setup_objects t1 gl n).1
      ((forLoop n (setup_plane (setup_objects t1 gl n).1) (setup_objects t1 gl n).2).call
        (.glBindTexture 0))
    simp only [if_true]
    obtain ⟨h1, h2, h3, h4, h5, h6, h7, h8, h9, h10⟩ := ho
    obtain ⟨g1, g2, g3, g4, g5, g6, g7, _⟩ := hs
    exact ⟨trivial, g1.trans h1, g2.trans h2, g3.trans h3, g4.trans h4, g5.trans h5,
      g6.trans h6, g7.trans h10⟩

/-- What the switch stores, field by field of the struct it receives. -/
theorem switch_fields (t : EGL_Texture) (fmt : EGL_PixelFormat) (w h s : Nat) (n : Nat)
    (t1 : EGL_Texture) (hsw : egl_texture_setup_switch t fmt w h s = some (n, t1)) :
    n = planeCount fmt ∧ supported fmt = true ∧ t1.streaming = t.streaming ∧
    t1.needsUpdate = t.needsUpdate ∧ t1.pboIndex = t.pboIndex ∧
    t1.textureCount = t.textureCount ∧ t1.textures = t.textures ∧
    t1.samplers = t.samplers ∧ t1.pboMap = t.pboMap ∧ t1.hasPBO = t.hasPBO ∧
    t1.pbo = t.pbo := by
  cases fmt with
  | unknown tag => simp [egl_texture_setup_switch] at hsw
  | _ =>
    simp only [egl_texture_setup_switch, Option.some.injEq, Prod.mk.injEq] at hsw
    obtain ⟨rfl, rfl⟩ := hsw
    exact ⟨rfl, rfl, rfl, rfl, rfl, rfl, rfl, rfl, rfl, rfl, rfl⟩

/-- The switch handles exactly the supported formats. -/
theorem switch_isSome (t : EGL_Texture) (fmt : EGL_PixelFormat) (w h s : Nat)
    (hf : supported fmt = true) :
    ∃ t1, egl_texture_setup_switch t fmt w h s = some (planeCount fmt, t1) := by
  cases fmt <;> first
    | exact ⟨_, rfl⟩
    | exact absurd hf (by simp [supported])

/-! ## Plane layout -/

/-- The layout fields `egl_texture_setup` leaves for YUV420, on any prior
state. -/
theorem yuv420_fields (texture : EGL_Texture) (gl : GLContext) (width height stride : Nat)
    (streaming : Bool) :
    (egl_texture_setup texture gl .EGL_PF_YUV420 width height stride streaming).ret = true ∧
    (configured texture gl .EGL_PF_YUV420 width height stride streaming).planes =
      set2 (set2 (set2 (set2 (set2 (set2 (set2 (set2 (set2 texture.planes
        0 0 width) 0 1 height) 0 2 stride)
        1 0 (width / 2)) 1 1 (height / 2)) 1 2 (stride / 2))
        2 0 (width / 2)) 2 1 (height / 2)) 2 2 (stride / 2) ∧
    (configured texture gl .EGL_PF_YUV420 width height stride streaming).offsets =
      set1 (set1 (set1 texture.offsets 0 0) 1 (stride * height))
        2 (stride * height + stride * height / 4) ∧
    (configured texture gl .EGL_PF_YUV420 width height stride streaming).pboBufferSize =
      stride * height + stride * height / 4 + stride * height / 4 ∧
    (configured texture gl .EGL_PF_YUV420 width height stride streaming).textureCount =
      max 3 texture.textureCount := by
  obtain ⟨h1, h2, h3, h4, _, _, _, h8⟩ :=
    setup_fields texture gl .EGL_PF_YUV420 width height stride streaming 3 _ rfl
  exact ⟨h1, h2, h3, h4, h8⟩

/-- The layout fields `egl_texture_setup` leaves for a packed format, on any
prior state. -/
theorem packed_fields (texture : EGL_Texture) (gl : GLContext) (fmt : EGL_PixelFormat)
    (width height stride : Nat) (streaming : Bool)
    (hf : fmt = .EGL_PF_BGRA ∨ fmt = .EGL_PF_RGBA ∨ fmt = .EGL_PF_RGBA10) :
    (egl_texture_setup texture gl fmt width height stride streaming).ret = true ∧
    (configured texture gl fmt width height stride streaming).planes =
      set2 (set2 (set2 texture.planes 0 0 width) 0 1 height) 0 2 (stride / 4) ∧
    (configured texture gl fmt width height stride streaming).offsets =
      set1 texture.offsets 0 0 ∧
    (configured texture gl fmt width height stride streaming).pboBufferSize =
      height * stride ∧
    (configured texture gl fmt width height stride streaming).textureCount =
      max 1 texture.textureCount := by
  rcases hf with rfl | rfl | rfl
  · obtain ⟨h1, h2, h3, h4, _, _, _, h8⟩ :=
      setup_fields texture gl .EGL_PF_BGRA width height stride streaming 1 _ rfl
    exact ⟨h1, h2, h3, h4, h8⟩
  · obtain ⟨h1, h2, h3, h4, _, _, _, h8⟩ :=
      setup_fields texture gl .EGL_PF_RGBA width height stride streaming 1 _ rfl
    exact ⟨h1, h2, h3, h4, h8⟩
  · obtain ⟨h1, h2, h3, h4, _, _, _, h8⟩ :=
      setup_fields texture gl .EGL_PF_RGBA10 width height stride streaming 1 _ rfl
    exact ⟨h1, h2, h3, h4, h8⟩

theorem update_pending (t : EGL_Texture) (gl : GLContext) (buffer : Nat → uint8_t)
    (hs : t.streaming = true) (hn : t.needsUpdate = true) :
    egl_texture_update t gl buffer = some { ret := false, texture := t, gl := gl } := by
  simp [egl_texture_update, hs, hn]

/-- A streaming update with no upload pending, on a mapped slot: the index
toggles, the frame lands in the slot the new index names, the flag is set. -/
theorem update_streaming_eq (t : EGL_Texture) (gl : GLContext) (buffer : Nat → uint8_t)
    (hs : t.streaming = true) (hn : t.needsUpdate = false) (hi : t.pboIndex < 2)
    (m : List uint8_t) (hm : t.pboMap (1 - t.pboIndex) = some m)
    (hlen : t.pboBufferSize ≤ m.length) :
    egl_texture_update t gl buffer = some
      { ret := true
        texture := { t with
          pboIndex := 1 - t.pboIndex
          pboMap := set1 t.pboMap (1 - t.pboIndex)
            (some (frame buffer t.pboBufferSize ++ m.drop t.pboBufferSize))
          needsUpdate := true }
        gl := gl } := by
  obtain h0 | h1 : t.pboIndex = 0 ∨ t.pboIndex = 1 := by omega
  · rw [h0] at hm
    simp [egl_texture_update, hs, hn, h0, memcpy, hm, hlen, frame]
  · rw [h1] at hm
    simp [egl_texture_update, hs, hn, h1, memcpy, hm, hlen, frame]

/-- A streaming update that returns at all with no upload pending found its
destination slot mapped with room for the frame. -/
theorem update_defined (t : EGL_Texture) (gl : GLContext) (buffer : Nat → uint8_t)
    (r : Outcome) (hs : t.streaming = true) (hn : t.needsUpdate = false)
    (hi : t.pboIndex < 2) (h : egl_texture_update t gl buffer = some r) :
    ∃ m, t.pboMap (1 - t.pboIndex) = some m ∧ t.pboBufferSize ≤ m.length := by
  obtain h0 | h1 : t.pboIndex = 0 ∨ t.pboIndex = 1 := by omega
  · simp only [egl_texture_update, hs, hn, h0, memcpy] at h
    rw [h0]
    cases hm : t.pboMap 1 with
    | none => simp [hm] at h
    | some m =>
      refine ⟨m, rfl, ?_⟩
      by_contra hlen
      simp [hm, hlen] at h
  · simp only [egl_texture_update, hs, hn, h1, memcpy] at h
    rw [h1]
    cases hm : t.pboMap 0 with
    | none => simp [hm] at h
    | some m =>
      refine ⟨m, rfl, ?_⟩
      by_contra hlen
      simp [hm, hlen] at h

theorem slotMapped_iff (t : EGL_Texture) (i : Nat) :
    slotMapped t i = true ↔ ∃ m, t.pboMap i = some m ∧ t.pboBufferSize ≤ m.length := by
  unfold slotMapped
  cases h : t.pboMap i with
  | none => simp
  | some m => simp

theorem frame_length (buffer : Nat → uint8_t) (n : Nat) : (frame buffer n).length = n := by
  simp [frame]

/-- The struct `egl_texture_bind` leaves: only `needsUpdate` can change, and
it is cleared exactly when a streaming upload was pending. -/
theorem bind_texture (t : EGL_Texture) (gl : GLContext) :
    (egl_texture_bind t gl).1 =
      if (t.streaming && t.needsUpdate) = true then { t with needsUpdate := false } else t := by
  unfold egl_texture_bind
  split <;> rfl

theorem bind_streaming (t : EGL_Texture) (gl : GLContext) (hs : t.streaming = true) :
    (egl_texture_bind t gl).1 = { t with needsUpdate := false } := by
  rw [bind_texture]
  rcases t with ⟨_, _, _, str, _, _, _, _, _, _, _, _, _, _, _, nu, _, _⟩
  simp only at hs
  subst hs
  cases nu <;> rfl

/-- A streaming update on a configured instance with no upload pending
succeeds, and the instance stays configured. -/
theorem update_succeeds (t : EGL_Texture) (gl : GLContext) (buffer : Nat → uint8_t)
    (hc : streamingConfigured t) (hn : t.needsUpdate = false) :
    ∃ r, egl_texture_update t gl buffer = some r ∧ r.ret = true ∧ r.gl = gl ∧
      r.texture.needsUpdate = true ∧ r.texture.streaming = true ∧
      r.texture.pboIndex = 1 - t.pboIndex ∧ streamingConfigured r.texture := by
  obtain ⟨hs, hi, hm0, hm1⟩ := hc
  have hmi : slotMapped t (1 - t.pboIndex) = true := by
    obtain h0 | h1 : t.pboIndex = 0 ∨ t.pboIndex = 1 := by omega
    · rw [h0]; exact hm1
    · rw [h1]; exact hm0
  obtain ⟨m, hm, hlen⟩ := (slotMapped_iff t _).1 hmi
  refine ⟨_, update_streaming_eq t gl buffer hs hn hi m hm hlen, rfl, rfl, rfl, hs, rfl, ?_⟩
  have hl : t.pboBufferSize ≤
      (frame buffer t.pboBufferSize ++ m.drop t.pboBufferSize).length := by
    simp [frame_length]
  refine ⟨hs, ?_, ?_, ?_⟩
  · show 1 - t.pboIndex < 2
    omega
  · rw [slotMapped_iff] at hm0 ⊢
    obtain ⟨m0, h0, hl0⟩ := hm0
    by_cases hidx : 1 - t.pboIndex = 0
    · exact ⟨_, by simp [set1, hidx], hl⟩
    · exact ⟨m0, by simp [set1, Ne.symm hidx, h0], hl0⟩
  · rw [slotMapped_iff] at hm1 ⊢
    obtain ⟨m1, h1, hl1⟩ := hm1
    by_cases hidx : 1 - t.pboIndex = 1
    · exact ⟨_, by simp [set1, hidx], hl⟩
    · exact ⟨m1, by simp [set1, Ne.symm hidx, h1], hl1⟩

/-- A successful `egl_texture_setup` with the streaming flag leaves a
configured instance, provided `pboIndex` named a slot before. -/
theorem setup_streamingConfigured (t : EGL_Texture) (gl : GLContext) (fmt : EGL_PixelFormat)
    (w h s : Nat) (hf : supported fmt = true) (hi : t.pboIndex < 2) :
    streamingConfigured (configured t gl fmt w h s true) := by
  obtain ⟨t1, hsw⟩ := switch_isSome (entered t fmt w h true) fmt w h s hf
  obtain ⟨_, _, ks, _, ki, _⟩ := switch_fields _ _ _ _ _ _ _ hsw
  unfold configured egl_texture_setup
  unfold entered at hsw
  simp only [hsw, if_true]
  have hsf := setup_streaming_fields (setup_objects t1 gl (planeCount fmt)).1
    ((forLoop (planeCount fmt) (setup_plane (setup_objects t1 gl (planeCount fmt)).1)
      (setup_objects t1 gl (planeCount fmt)).2).call (.glBindTexture 0))
  obtain ⟨_, _, g3, g4, _, g6, _, _, _, _, g11, g12⟩ := hsf
  obtain ⟨_, _, _, o4, _, o6, _⟩ := setup_objects_fields t1 gl (planeCount fmt)
  refine ⟨?_, ?_, ?_, ?_⟩
  · rw [g4, o4, ks]; rfl
  · rw [g6, o6, ki]; exact hi
  · rw [slotMapped_iff]
    exact ⟨_, g11, by simp [g3]⟩
  · rw [slotMapped_iff]
    exact ⟨_, g12, by simp [g3]⟩

/-- What `egl_texture_update` never touches, and where it leaves `pboIndex`. -/
theorem update_frame (t : EGL_Texture) (gl : GLContext) (buffer : Nat → uint8_t) (r : Outcome)
    (h : egl_texture_update t gl buffer = some r) :
    r.texture.textureCount = t.textureCount ∧ r.texture.streaming = t.streaming ∧
    r.texture.textures = t.textures ∧ r.texture.samplers = t.samplers ∧
    (t.pboIndex < 2 → r.texture.pboIndex < 2) := by
  cases hs : t.streaming
  · simp only [egl_texture_update, hs] at h
    simp only [Bool.false_eq_true, if_false, Option.some.injEq] at h
    subst h
    exact ⟨rfl, hs, rfl, rfl, fun hi => hi⟩
  · cases hn : t.needsUpdate
    · by_cases hi : t.pboIndex < 2
      · obtain ⟨m, hm, hlen⟩ := update_defined t gl buffer r hs hn hi h
        rw [update_streaming_eq t gl buffer hs hn hi m hm hlen] at h
        simp only [Option.some.injEq] at h
        subst h
        refine ⟨rfl, hs, rfl, rfl, fun _ => ?_⟩
        show 1 - t.pboIndex < 2
        omega
      · simp only [egl_texture_update, hs, hn, if_true, Bool.false_eq_true, if_false] at h
        by_cases h2 : t.pboIndex + 1 = 2
        · omega
        · simp only [h2, if_false] at h
          have h3 : ¬ t.pboIndex + 1 < 2 := by omega
          simp [h3, memcpy] at h
    · rw [update_pending t gl buffer hs hn] at h
      simp only [Option.some.injEq] at h
      subst h
      exact ⟨rfl, hs, rfl, rfl, fun hi => hi⟩

/-- What `egl_texture_setup` never touches, on any format and any prior
state: the update state; and the object count never decreases. -/
theorem setup_frame (t : EGL_Texture) (gl : GLContext) (fmt : EGL_PixelFormat)
    (w h s : Nat) (str : Bool) :
    (configured t gl fmt w h s str).pboIndex = t.pboIndex ∧
    (configured t gl fmt w h s str).needsUpdate = t.needsUpdate ∧
    t.textureCount ≤ (configured t gl fmt w h s str).textureCount := by
  cases hsw : egl_texture_setup_switch (entered t fmt w h str) fmt w h s with
  | none =>
    have e : egl_texture_setup t gl fmt w h s str =
        { ret := false, texture := entered t fmt w h str, gl := gl } := by
      unfold entered at hsw
      unfold egl_texture_setup
      simp only [hsw]
      rfl
    simp only [configured, e]
    exact ⟨rfl, rfl, le_refl _⟩
  | some p =>
    obtain ⟨n, t1⟩ := p
    obtain ⟨_, _, _, _, _, f6, f7, f8⟩ := setup_fields t gl fmt w h s str n t1 hsw
    obtain ⟨_, _, _, k4, k5, k6, _⟩ := switch_fields _ _ _ _ _ _ _ hsw
    refine ⟨?_, ?_, ?_⟩
    · rw [configured, f7, k5]; rfl
    · rw [configured, f6, k4]; rfl
    · rw [configured, f8, k6]
      exact le_max_right _ _

theorem bind_frame (t : EGL_Texture) (gl : GLContext) :
    (egl_texture_bind t gl).1.pboIndex = t.pboIndex ∧
    (egl_texture_bind t gl).1.textureCount = t.textureCount ∧
    (egl_texture_bind t gl).1.textures = t.textures ∧
    (egl_texture_bind t gl).1.samplers = t.samplers := by
  rw [bind_texture]
  split <;> exact ⟨rfl, rfl, rfl, rfl⟩

/-- One call keeps `pboIndex` within the two slots and does not lower the
object count. -/
theorem step_invariant (s s' : EGL_Texture × GLContext) (c : Call) (h : step s c = some s') :
    (s.1.pboIndex < 2 → s'.1.pboIndex < 2) ∧ s.1.textureCount ≤ s'.1.textureCount := by
  cases c with
  | setup fmt w ht st str =>
    simp only [step, Option.some.injEq] at h
    subst h
    obtain ⟨h1, _, h3⟩ := setup_frame s.1 s.2 fmt w ht st str
    exact ⟨fun hi => by simpa [configured] using h1 ▸ hi, h3⟩
  | update buffer =>
    simp only [step] at h
    cases hu : egl_texture_update s.1 s.2 buffer with
    | none => simp [hu] at h
    | some r =>
      simp only [hu, Option.some.injEq] at h
      subst h
      obtain ⟨h1, _, _, _, h5⟩ := update_frame s.1 s.2 buffer r hu
      exact ⟨h5, le_of_eq h1.symm⟩
  | bind =>
    simp only [step, Option.some.injEq] at h
    subst h
    obtain ⟨h1, h2, _⟩ := bind_frame s.1 s.2
    exact ⟨fun hi => h1 ▸ hi, le_of_eq h2.symm⟩

/-- A sequence of calls keeps `pboIndex` within the two slots and does not
lower the object count. -/
theorem run_invariant (cs : List Call) (s s' : EGL_Texture × GLContext)
    (h : run s cs = some s') :
    (s.1.pboIndex < 2 → s'.1.pboIndex < 2) ∧ s.1.textureCount ≤ s'.1.textureCount := by
  induction cs generalizing s with
  | nil =>
    simp only [run, Option.some.injEq] at h
    subst h
    exact ⟨fun hi => hi, le_refl _⟩
  | cons c cs ih =>
    simp only [run] at h
    cases hc : step s c with
    | none => simp [hc] at h
    | some s1 =>
      simp only [hc] at h
      obtain ⟨a1, a2⟩ := step_invariant s s1 c hc
      obtain ⟨b1, b2⟩ := ih s1 h
      exact ⟨fun hi => b1 (a1 hi), le_trans a2 b2⟩

theorem planeCount_le (fmt : EGL_PixelFormat) : planeCount fmt ≤ 3 := by
  cases fmt <;> simp [planeCount]

/-- The loops over `textureCount` stay within the three cells of `textures`,
`samplers`, `planes` and `offsets`: no sequence of calls takes the count
above 3. -/
theorem run_textureCount_le (cs : List Call) (s s' : EGL_Texture × GLContext)
    (h : run s cs = some s') (h3 : s.1.textureCount ≤ 3) : s'.1.textureCount ≤ 3 := by
  induction cs generalizing s with
  | nil =>
    simp only [run, Option.some.injEq] at h
    subst h
    exact h3
  | cons c cs ih =>
    simp only [run] at h
    cases hc : step s c with
    | none => simp [hc] at h
    | some s1 =>
      simp only [hc] at h
      refine ih s1 h ?_
      cases c with
      | setup fmt w ht st str =>
        simp only [step, Option.some.injEq] at hc
        subst hc
        cases hsw : egl_texture_setup_switch (entered s.1 fmt w ht str) fmt w ht st with
        | none =>
          have e : egl_texture_setup s.1 s.2 fmt w ht st str =
              { ret := false, texture := entered s.1 fmt w ht str, gl := s.2 } := by
            unfold entered at hsw
            unfold egl_texture_setup
            simp only [hsw]
            rfl
          rw [e]
          exact h3
        | some p =>
          obtain ⟨n, t1⟩ := p
          obtain ⟨_, _, _, _, _, _, _, f8⟩ := setup_fields s.1 s.2 fmt w ht st str n t1 hsw
          obtain ⟨k1, _, _, _, _, k6, _⟩ := switch_fields _ _ _ _ _ _ _ hsw
          have hn : n ≤ 3 := k1 ▸ planeCount_le fmt
          show (egl_texture_setup s.1 s.2 fmt w ht st str).texture.textureCount ≤ 3
          rw [f8, k6]
          exact max_le hn h3
      | update buffer =>
        simp only [step] at hc
        cases hu : egl_texture_update s.1 s.2 buffer with
        | none => simp [hu] at hc
        | some r =>
          simp only [hu, Option.some.injEq] at hc
          subst hc
          rw [(update_frame s.1 s.2 buffer r hu).1]
          exact h3
      | bind =>
        simp only [step, Option.some.injEq] at hc
        subst hc
        rw [(bind_frame s.1 s.2).2.1]
        exact h3

/-! ## Back-pressure and slot alternation -/

/-- C4: on every texture configured in streaming mode with no upload pending,
`egl_texture_update` succeeds and sets `needsUpdate`; a second
`egl_texture_update` before any `egl_texture_bind` returns false (and the frame
of the first is still the one pending); `egl_texture_bind` clears the flag, and
after it `egl_texture_update` succeeds again.  So at most one frame is pending
at any time. -/
theorem backpressure (t : EGL_Texture) (gl : GLContext) (b1 b2 b3 : Nat → uint8_t)
    (hc : streamingConfigured t) (hn : t.needsUpdate = false) :
    ∃ r1, egl_texture_update t gl b1 = some r1 ∧ r1.ret = true ∧
      r1.texture.needsUpdate = true ∧
      (∃ r2, egl_texture_update r1.texture r1.gl b2 = some r2 ∧ r2.ret = false ∧
        r2.texture = r1.texture) ∧
      (egl_texture_bind r1.texture r1.gl).1.needsUpdate = false ∧
      (∃ r3, egl_texture_update (egl_texture_bind r1.texture r1.gl).1
          (egl_texture_bind r1.texture r1.gl).2 b3 = some r3 ∧ r3.ret = true ∧
        r3.texture.needsUpdate = true) := by
  obtain ⟨r1, h1, hret, _, hpend, hstr, _, hconf⟩ := update_succeeds t gl b1 hc hn
  refine ⟨r1, h1, hret, hpend, ?_, ?_, ?_⟩
  · exact ⟨_, update_pending r1.texture r1.gl b2 hstr hpend, rfl, rfl⟩
  · rw [bind_streaming r1.texture r1.gl hstr]
  · have hb := bind_streaming r1.texture r1.gl hstr
    have hconf2 : streamingConfigured (egl_texture_bind r1.texture r1.gl).1 := by
      rw [hb]
      exact hconf
    have hn2 : (egl_texture_bind r1.texture r1.gl).1.needsUpdate = false := by
      rw [hb]
    obtain ⟨r3, h3, hret3, _, hpend3, _⟩ :=
      update_succeeds _ (egl_texture_bind r1.texture r1.gl).2 b3 hconf2 hn2
    exact ⟨r3, h3, hret3, hpend3⟩

/-- Witness of `backpressure`: the streaming BGRA instance right after its
setup. -/
theorem backpressure_witness :
    streamingConfigured streamingBGRA.texture ∧ streamingBGRA.texture.needsUpdate = false ∧
    ∃ r1, egl_texture_update streamingBGRA.texture streamingBGRA.gl rampA = some r1 ∧
      r1.ret = true ∧ r1.texture.needsUpdate = true ∧
      (∃ r2, egl_texture_update r1.texture r1.gl rampB = some r2 ∧ r2.ret = false ∧
        r2.texture = r1.texture) ∧
      (egl_texture_bind r1.texture r1.gl).1.needsUpdate = false ∧
      (∃ r3, egl_texture_update (egl_texture_bind r1.texture r1.gl).1
          (egl_texture_bind r1.texture r1.gl).2 rampB = some r3 ∧ r3.ret = true ∧
        r3.texture.needsUpdate = true) :=
  ⟨by decide, rfl,
    backpressure streamingBGRA.texture streamingBGRA.gl rampA rampB rampB (by decide) rfl⟩

/-- C5: on every streaming texture state with `needsUpdate = true` and every
input buffer, `egl_texture_update` returns false and hands back the struct and
the OpenGL context it was given: `pboIndex`, `needsUpdate`, both transfer
slots, the plane layout and all handles are as before the call, and no OpenGL
call is issued. -/
theorem rejected_update_unchanged (t : EGL_Texture) (gl : GLContext)
    (buffer : Nat → uint8_t) (hs : t.streaming = true) (hn : t.needsUpdate = true) :
    egl_texture_update t gl buffer = some { ret := false, texture := t, gl := gl } ∧
    ∀ r, egl_texture_update t gl buffer = some r →
      r.ret = false ∧ r.texture = t ∧ issued gl r.gl = [] ∧
      r.texture.pboIndex = t.pboIndex ∧ r.texture.needsUpdate = true ∧
      r.texture.pboMap 0 = t.pboMap 0 ∧ r.texture.pboMap 1 = t.pboMap 1 := by
  have h := update_pending t gl buffer hs hn
  refine ⟨h, fun r hr => ?_⟩
  rw [h] at hr
  simp only [Option.some.injEq] at hr
  subst hr
  exact ⟨rfl, rfl, by simp [issued], rfl, hn, rfl, rfl⟩

/-- Witness of `rejected_update_unchanged`: the streaming BGRA instance after
one accepted frame. -/
theorem rejected_update_unchanged_witness :
    ∃ t gl, run (streamingBGRA.texture, streamingBGRA.gl) [.update rampA] = some (t, gl) ∧
      t.streaming = true ∧ t.needsUpdate = true ∧
      egl_texture_update t gl rampB = some { ret := false, texture := t, gl := gl } :=
  ⟨_, _, rfl, rfl, rfl, (rejected_update_unchanged _ _ rampB rfl rfl).1⟩

/-- A successful streaming update, described from the struct before it. -/
theorem update_accepted (t : EGL_Texture) (gl : GLContext) (buffer : Nat → uint8_t)
    (r : Outcome) (hs : t.streaming = true) (hi : t.pboIndex < 2)
    (h : egl_texture_update t gl buffer = some r) (hr : r.ret = true) :
    t.needsUpdate = false ∧ r.texture.streaming = true ∧
    r.texture.pboBufferSize = t.pboBufferSize ∧
    r.texture.pboIndex = 1 - t.pboIndex ∧
    (r.texture.pboMap (1 - t.pboIndex)).map (List.take t.pboBufferSize) =
      some (frame buffer t.pboBufferSize) ∧
    r.texture.pboMap t.pboIndex = t.pboMap t.pboIndex := by
  have hn : t.needsUpdate = false := by
    cases hn : t.needsUpdate
    · rfl
    · rw [update_pending t gl buffer hs hn] at h
      simp only [Option.some.injEq] at h
      subst h
      simp at hr
  obtain ⟨m, hm, hlen⟩ := update_defined t gl buffer r hs hn hi h
  rw [update_streaming_eq t gl buffer hs hn hi m hm hlen] at h
  simp only [Option.some.injEq] at h
  subst h
  refine ⟨hn, hs, rfl, rfl, ?_, ?_⟩
  · simp [set1, List.take_left' (frame_length buffer t.pboBufferSize)]
  · have hne : t.pboIndex ≠ 1 - t.pboIndex := by omega
    simp [set1, hne]

/-- C6: on every state an instance can reach from `egl_texture_init`,
`pboIndex` is 0 or 1; and in streaming mode, for every sequence update, bind,
update in which both updates succeed, each update toggles `pboIndex` to the
other of 0 and 1, so the two updates write different transfer slots; each
copies its frame into exactly the slot the new `pboIndex` names and leaves the
other slot's contents unchanged. -/
theorem slot_alternation (zeroTag : EGL_PixelFormat) (g : GLContext) (cs : List Call)
    (t : EGL_Texture) (gl : GLContext) (hreach : run (zeroed zeroTag, g) cs = some (t, gl)) :
    (t.pboIndex = 0 ∨ t.pboIndex = 1) ∧
    ∀ (b1 b2 : Nat → uint8_t) (r1 r3 : Outcome), t.streaming = true →
      egl_texture_update t gl b1 = some r1 → r1.ret = true →
      egl_texture_update (egl_texture_bind r1.texture r1.gl).1
        (egl_texture_bind r1.texture r1.gl).2 b2 = some r3 → r3.ret = true →
      r1.texture.pboIndex = 1 - t.pboIndex ∧
      r3.texture.pboIndex = 1 - r1.texture.pboIndex ∧
      r1.texture.pboIndex ≠ r3.texture.pboIndex ∧
      (r1.texture.pboIndex = 0 ∨ r1.texture.pboIndex = 1) ∧
      (r3.texture.pboIndex = 0 ∨ r3.texture.pboIndex = 1) ∧
      (r1.texture.pboMap r1.texture.pboIndex).map (List.take t.pboBufferSize) =
        some (frame b1 t.pboBufferSize) ∧
      r1.texture.pboMap r3.texture.pboIndex = t.pboMap r3.texture.pboIndex ∧
      (r3.texture.pboMap r3.texture.pboIndex).map (List.take t.pboBufferSize) =
        some (frame b2 t.pboBufferSize) ∧
      r3.texture.pboMap r1.texture.pboIndex = r1.texture.pboMap r1.texture.pboIndex := by
  have hi : t.pboIndex < 2 := (run_invariant cs _ _ hreach).1 (by simp [zeroed])
  refine ⟨by omega, ?_⟩
  intro b1 b2 r1 r3 hs h1 hr1 h3 hr3
  obtain ⟨_, hs1, hsz1, hidx1, hcopy1, hkeep1⟩ := update_accepted t gl b1 r1 hs hi h1 hr1
  have hb := bind_streaming r1.texture r1.gl hs1
  have hi1 : r1.texture.pboIndex < 2 := by omega
  have hs2 : (egl_texture_bind r1.texture r1.gl).1.streaming = true := by rw [hb]; exact hs1
  have hi2 : (egl_texture_bind r1.texture r1.gl).1.pboIndex < 2 := by rw [hb]; exact hi1
  obtain ⟨_, _, _, hidx3, hcopy3, hkeep3⟩ := update_accepted _ _ b2 r3 hs2 hi2 h3 hr3
  rw [hb] at hidx3 hcopy3 hkeep3
  simp only at hidx3 hcopy3 hkeep3
  rw [hsz1] at hcopy3
  have e3 : r3.texture.pboIndex = t.pboIndex := by omega
  refine ⟨hidx1, hidx3, by omega, by omega, by omega, ?_, ?_, ?_, ?_⟩
  · rw [hidx1]; exact hcopy1
  · rw [e3]; exact hkeep1
  · rw [hidx3]; exact hcopy3
  · exact hkeep3

/-- Witness of `slot_alternation`: two frames through a fresh instance set up
for streaming BGRA; the first lands in slot 1, the second in slot 0. -/
theorem slot_alternation_witness :
    ∃ t gl r1 r3,
      run (zeroed .EGL_PF_RGBA, gl0) [.setup .EGL_PF_BGRA 2 1 8 true] = some (t, gl) ∧
      t.streaming = true ∧
      egl_texture_update t gl rampA = some r1 ∧ r1.ret = true ∧
      egl_texture_update (egl_texture_bind r1.texture r1.gl).1
        (egl_texture_bind r1.texture r1.gl).2 rampB = some r3 ∧ r3.ret = true ∧
      t.pboIndex = 0 ∧ r1.texture.pboIndex = 1 ∧ r3.texture.pboIndex = 0 ∧
      r1.texture.pboIndex ≠ r3.texture.pboIndex :=
  ⟨_, _, _, _, rfl, rfl, rfl, rfl, rfl, rfl, rfl, rfl, rfl,
    ((slot_alternation .EGL_PF_RGBA gl0 [.setup .EGL_PF_BGRA 2 1 8 true] _ _ rfl).2
      rampA rampB _ _ rfl rfl rfl rfl rfl).2.2.1⟩

/-! ## Texture and sampler objects -/

/-- Growing from one object to the three planes of YUV420: the texture and
sampler calls issued, and the names stored. -/
theorem setup_grows (t : EGL_Texture) (gl : GLContext) (w h s : Nat) (str : Bool)
    (hc : t.textureCount = 1) :
    (configured t gl .EGL_PF_YUV420 w h s str).textureCount = 3 ∧
    (issued gl (egl_texture_setup t gl .EGL_PF_YUV420 w h s str).gl).filter
        GLCall.reallocates =
      [.glDeleteTextures 1 [t.textures 0], .glDeleteSamplers 1 [t.samplers 0],
       .glGenTextures 3 [gl.names + 1, gl.names + 2, gl.names + 3],
       .glGenSamplers 3 [gl.names + 4, gl.names + 5, gl.names + 6]] ∧
    (∀ i, i < 3 →
      (configured t gl .EGL_PF_YUV420 w h s str).textures i = gl.names + 1 + i ∧
      (configured t gl .EGL_PF_YUV420 w h s str).samplers i = gl.names + 4 + i) := by
  refine ⟨?_, ?_, ?_⟩
  · rw [(yuv420_fields t gl w h s str).2.2.2.2, hc]
    rfl
  · cases str <;> cases hp : t.hasPBO <;>
    simp [egl_texture_setup, egl_texture_setup_switch, setup_objects, hc, forLoop,
      List.range_succ, setup_plane, GLContext.call, GLContext.gen, setup_streaming,
      release_pbo, setup_slot, issued, cells, genInto, GLContext.fresh, GLCall.reallocates,
      hp, List.filter]
  · intro i hi
    cases str <;>
    simp [configured, egl_texture_setup, egl_texture_setup_switch, setup_objects, hc,
      (setup_streaming_fields _ _).2.2.2.2.2.2.2.1, (setup_streaming_fields _ _).2.2.2.2.2.2.2.2.1,
      genInto, GLContext.fresh, GLContext.call, GLContext.gen, hi]

/-- Going to a packed format on an instance that holds three objects: no
texture or sampler call that deletes or generates, and the names are kept. -/
theorem setup_reuses (t : EGL_Texture) (gl : GLContext) (fmt : EGL_PixelFormat)
    (w h s : Nat) (str : Bool) (hc : t.textureCount = 3)
    (hf : fmt = .EGL_PF_BGRA ∨ fmt = .EGL_PF_RGBA ∨ fmt = .EGL_PF_RGBA10) :
    (configured t gl fmt w h s str).textureCount = 3 ∧
    (configured t gl fmt w h s str).textures = t.textures ∧
    (configured t gl fmt w h s str).samplers = t.samplers ∧
    (issued gl (egl_texture_setup t gl fmt w h s str).gl).filter GLCall.reallocates = [] := by
  refine ⟨?_, ?_, ?_, ?_⟩
  · rw [(packed_fields t gl fmt w h s str hf).2.2.2.2, hc]
    rfl
  · rcases hf with rfl | rfl | rfl <;> cases str <;>
    simp [configured, egl_texture_setup, egl_texture_setup_switch, setup_objects, hc,
      (setup_streaming_fields _ _).2.2.2.2.2.2.2.1]
  · rcases hf with rfl | rfl | rfl <;> cases str <;>
    simp [configured, egl_texture_setup, egl_texture_setup_switch, setup_objects, hc,
      (setup_streaming_fields _ _).2.2.2.2.2.2.2.2.1]
  · rcases hf with rfl | rfl | rfl <;> cases str <;> cases hp : t.hasPBO <;>
    simp [egl_texture_setup, egl_texture_setup_switch, setup_objects, hc, forLoop,
      List.range_succ, setup_plane, GLContext.call, GLContext.gen, setup_streaming,
      release_pbo, setup_slot, issued, cells, genInto, GLContext.fresh, GLCall.reallocates,
      hp, List.filter]

/-- C7: the allocated texture/sampler count `textureCount` never decreases
along any sequence of `egl_texture_setup`, `egl_texture_update` and
`egl_texture_bind` calls on one instance.  A setup to YUV420 on an instance
holding the one object of a 1-plane format deletes that texture and sampler
and generates three new ones of each; a setup to a 1-plane format on an instance
holding the three objects of YUV420 issues no call that deletes or generates a
texture or sampler, keeps the stored names and keeps the count at 3.  In
particular a fresh instance taken through a 1-plane format, YUV420 and a
1-plane format again holds 1, 3 and 3 objects. -/
theorem growth_only (t : EGL_Texture) (gl : GLContext) :
    (∀ cs s', run (t, gl) cs = some s' → t.textureCount ≤ s'.1.textureCount) ∧
    (t.textureCount = 1 → ∀ w h s str,
      (configured t gl .EGL_PF_YUV420 w h s str).textureCount = 3 ∧
      (issued gl (egl_texture_setup t gl .EGL_PF_YUV420 w h s str).gl).filter
          GLCall.reallocates =
        [.glDeleteTextures 1 [t.textures 0], .glDeleteSamplers 1 [t.samplers 0],
         .glGenTextures 3 [gl.names + 1, gl.names + 2, gl.names + 3],
         .glGenSamplers 3 [gl.names + 4, gl.names + 5, gl.names + 6]] ∧
      (∀ i, i < 3 →
        (configured t gl .EGL_PF_YUV420 w h s str).textures i = gl.names + 1 + i ∧
        (configured t gl .EGL_PF_YUV420 w h s str).samplers i = gl.names + 4 + i)) ∧
    (t.textureCount = 3 → ∀ fmt w h s str,
      fmt = .EGL_PF_BGRA ∨ fmt = .EGL_PF_RGBA ∨ fmt = .EGL_PF_RGBA10 →
      (configured t gl fmt w h s str).textureCount = 3 ∧
      (configured t gl fmt w h s str).textures = t.textures ∧
      (configured t gl fmt w h s str).samplers = t.samplers ∧
      (issued gl (egl_texture_setup t gl fmt w h s str).gl).filter
        GLCall.reallocates = []) ∧
    (∀ zeroTag fmt1 fmt2 w1 h1 s1 str1 w2 h2 s2 str2 w3 h3 s3 str3 (a b c : Outcome),
      fmt1 = .EGL_PF_BGRA ∨ fmt1 = .EGL_PF_RGBA ∨ fmt1 = .EGL_PF_RGBA10 →
      fmt2 = .EGL_PF_BGRA ∨ fmt2 = .EGL_PF_RGBA ∨ fmt2 = .EGL_PF_RGBA10 →
      a = egl_texture_setup (zeroed zeroTag) gl fmt1 w1 h1 s1 str1 →
      b = egl_texture_setup a.texture a.gl .EGL_PF_YUV420 w2 h2 s2 str2 →
      c = egl_texture_setup b.texture b.gl fmt2 w3 h3 s3 str3 →
      a.texture.textureCount = 1 ∧ b.texture.textureCount = 3 ∧
      c.texture.textureCount = 3 ∧
      (issued a.gl b.gl).filter GLCall.reallocates =
        [.glDeleteTextures 1 [a.texture.textures 0],
         .glDeleteSamplers 1 [a.texture.samplers 0],
         .glGenTextures 3 [a.gl.names + 1, a.gl.names + 2, a.gl.names + 3],
         .glGenSamplers 3 [a.gl.names + 4, a.gl.names + 5, a.gl.names + 6]] ∧
      (issued b.gl c.gl).filter GLCall.reallocates = [] ∧
      c.texture.textures = b.texture.textures ∧
      c.texture.samplers = b.texture.samplers) := by
  refine ⟨fun cs s' hrun => (run_invariant cs (t, gl) s' hrun).2,
    fun hc w h s str => setup_grows t gl w h s str hc,
    fun hc fmt w h s str hf => setup_reuses t gl fmt w h s str hc hf, ?_⟩
  intro zeroTag fmt1 fmt2 w1 h1 s1 str1 w2 h2 s2 str2 w3 h3 s3 str3 a b c hf1 hf2 ha hb hc
  have ca : a.texture.textureCount = 1 := by
    rw [ha, (packed_fields (zeroed zeroTag) gl fmt1 w1 h1 s1 str1 hf1).2.2.2.2]
    rfl
  obtain ⟨g1, g2, _⟩ := setup_grows a.texture a.gl w2 h2 s2 str2 ca
  have cb : b.texture.textureCount = 3 := by rw [hb]; exact g1
  obtain ⟨r1, r2, r3, r4⟩ := setup_reuses b.texture b.gl fmt2 w3 h3 s3 str3 cb hf2
  subst hc
  refine ⟨ca, cb, r1, ?_, r4, r2, r3⟩
  rw [hb]
  exact g2

/-- Witness of `growth_only`: BGRA to YUV420 grows from 1 object to 3; YUV420 to
BGRA stays at 3. -/
theorem growth_only_witness :
    plainBGRA.texture.textureCount = 1 ∧
    (configured plainBGRA.texture plainBGRA.gl .EGL_PF_YUV420 4 4 4 false).textureCount = 3 ∧
    plainYUV.texture.textureCount = 3 ∧
    (configured plainYUV.texture plainYUV.gl .EGL_PF_BGRA 2 1 8 false).textureCount = 3 ∧
    (issued plainYUV.gl
      (egl_texture_setup plainYUV.texture plainYUV.gl .EGL_PF_BGRA 2 1 8 false).gl).filter
        GLCall.reallocates = [] :=
  ⟨rfl, ((growth_only plainBGRA.texture plainBGRA.gl).2.1 rfl 4 4 4 false).1, rfl,
    ((growth_only plainYUV.texture plainYUV.gl).2.2.1 rfl .EGL_PF_BGRA 2 1 8 false
      (Or.inl rfl)).1,
    ((growth_only plainYUV.texture plainYUV.gl).2.2.1 rfl .EGL_PF_BGRA 2 1 8 false
      (Or.inl rfl)).2.2.2⟩

/-- C8 (amended): after every successful `egl_texture_setup`, on any prior
state, `egl_texture_count` reports the larger of the configured format's plane
count and the count the instance held before the call; it equals the plane
count (1 for BGRA, RGBA and RGBA10, 3 for YUV420) whenever the instance held no
more objects than that, in particular on a fresh instance. -/
theorem count_after_setup (t : EGL_Texture) (gl : GLContext) (fmt : EGL_PixelFormat)
    (w h s : Nat) (str : Bool) (hf : supported fmt = true) :
    (egl_texture_setup t gl fmt w h s str).ret = true ∧
    egl_texture_count (configured t gl fmt w h s str) = max (planeCount fmt) t.textureCount ∧
    (t.textureCount ≤ planeCount fmt →
      egl_texture_count (configured t gl fmt w h s str) = planeCount fmt) ∧
    (∀ zeroTag, egl_texture_count (configured (zeroed zeroTag) gl fmt w h s str) =
      planeCount fmt) ∧
    planeCount .EGL_PF_BGRA = 1 ∧ planeCount .EGL_PF_RGBA = 1 ∧
    planeCount .EGL_PF_RGBA10 = 1 ∧ planeCount .EGL_PF_YUV420 = 3 := by
  have key : ∀ t0 : EGL_Texture,
      (egl_texture_setup t0 gl fmt w h s str).ret = true ∧
      egl_texture_count (configured t0 gl fmt w h s str) =
        max (planeCount fmt) t0.textureCount := by
    intro t0
    obtain ⟨t1, hsw⟩ := switch_isSome (entered t0 fmt w h str) fmt w h s hf
    obtain ⟨f1, _, _, _, _, _, _, f8⟩ := setup_fields t0 gl fmt w h s str _ t1 hsw
    obtain ⟨_, _, _, _, _, k6, _⟩ := switch_fields _ _ _ _ _ _ _ hsw
    refine ⟨f1, ?_⟩
    rw [egl_texture_count, configured, f8, k6]
    rfl
  refine ⟨(key t).1, (key t).2, fun hle => ?_, fun zeroTag => ?_, rfl, rfl, rfl, rfl⟩
  · rw [(key t).2]
    exact max_eq_left hle
  · rw [(key (zeroed zeroTag)).2]
    exact max_eq_left (Nat.zero_le _)

/-- Witness of `count_after_setup`: YUV420 on an instance that holds one
object. -/
theorem count_after_setup_witness :
    supported .EGL_PF_YUV420 = true ∧ plainBGRA.texture.textureCount = 1 ∧
    egl_texture_count (configured plainBGRA.texture plainBGRA.gl .EGL_PF_YUV420 4 4 4 true) =
      3 :=
  ⟨rfl, rfl,
    (count_after_setup plainBGRA.texture plainBGRA.gl .EGL_PF_YUV420 4 4 4 true rfl).2.2.1
      (by decide)⟩

/-- C8 (as stated) fails: a successful setup for BGRA on an instance that was
set up for YUV420 before leaves `egl_texture_count` at 3, not at the plane
count 1 of BGRA. -/
theorem count_exceeds_planes :
    plainYUV.ret = true ∧ yuvThenBGRA.ret = true ∧
    yuvThenBGRA.texture.pixFmt = .EGL_PF_BGRA ∧
    planeCount .EGL_PF_BGRA = 1 ∧
    egl_texture_count yuvThenBGRA.texture = 3 ∧
    egl_texture_count yuvThenBGRA.texture ≠ planeCount .EGL_PF_BGRA := by
  decide

/-- An unknown format tag: `egl_texture_setup` returns false, issues no OpenGL
call, and the struct is the one the four assignments of lines 97-100 leave. -/
theorem setup_unknown (t : EGL_Texture) (gl : GLContext) (tag w h s : Nat) (str : Bool) :
    egl_texture_setup t gl (.unknown tag) w h s str =
      { ret := false, texture := entered t (.unknown tag) w h str, gl := gl } :=
  rfl

/-- C9, the code at the failing input: on a non-streaming BGRA instance of
2 x 1, a setup call with an unknown format tag for 640 x 480, streaming,
returns false, keeps the plane layout, the buffer size, every handle and the
OpenGL context, and yet has overwritten `pixFmt`, `width`, `height` and
`streaming`; the next `egl_texture_update` then copies through the `NULL`
mapping of a slot that was never allocated. -/
theorem failed_setup_overwrites :
    rejectedSetup.ret = false ∧
    plainBGRA.texture.pixFmt = .EGL_PF_BGRA ∧ rejectedSetup.texture.pixFmt = .unknown 99 ∧
    plainBGRA.texture.width = 2 ∧ rejectedSetup.texture.width = 640 ∧
    plainBGRA.texture.height = 1 ∧ rejectedSetup.texture.height = 480 ∧
    plainBGRA.texture.streaming = false ∧ rejectedSetup.texture.streaming = true ∧
    rejectedSetup.texture.planes = plainBGRA.texture.planes ∧
    rejectedSetup.texture.offsets = plainBGRA.texture.offsets ∧
    rejectedSetup.texture.pboBufferSize = plainBGRA.texture.pboBufferSize ∧
    rejectedSetup.texture.textures = plainBGRA.texture.textures ∧
    rejectedSetup.texture.samplers = plainBGRA.texture.samplers ∧
    rejectedSetup.texture.pbo = plainBGRA.texture.pbo ∧
    rejectedSetup.texture.hasPBO = false ∧
    rejectedSetup.gl = plainBGRA.gl ∧
    (egl_texture_update rejectedSetup.texture rejectedSetup.gl rampA).isNone = true :=
  ⟨rfl, rfl, rfl, rfl, rfl, rfl, rfl, rfl, rfl, rfl, rfl, rfl, rfl, rfl, rfl, rfl, rfl, rfl⟩

/-- C10, the code at the failing input: on a non-streaming BGRA instance of
2 x 2 with a stride of 16 bytes, plane 0 is (2, 2, 4); `egl_texture_update`
uploads the 2 x 2 region from `buffer + 0` with the unpack row length set to 2,
the plane's width `planes[0][0]`, not to its row stride of 4 texels
`planes[0][2]`, which is what `egl_texture_bind` uses on the streaming path.
It writes no transfer slot and leaves `needsUpdate` and `pboIndex` as they
were. -/
theorem direct_upload_row_length :
    paddedBGRA.ret = true ∧
    paddedBGRA.texture.planes 0 0 = 2 ∧ paddedBGRA.texture.planes 0 1 = 2 ∧
    paddedBGRA.texture.planes 0 2 = 4 ∧
    (egl_texture_update paddedBGRA.texture paddedBGRA.gl rampA).map
        (fun r => (r.ret, issued paddedBGRA.gl r.gl)) =
      some (true,
        [.glBindTexture 1,
         .glPixelStorei_UNPACK_ROW_LENGTH 2,
         .glTexSubImage2D 2 2 .GL_BGRA .GL_UNSIGNED_BYTE (.client 0),
         .glBindTexture 0]) ∧
    (egl_texture_update paddedBGRA.texture paddedBGRA.gl rampA).map
        (fun r => (r.texture.needsUpdate, r.texture.pboIndex, r.texture.pboMap 0,
          r.texture.pboMap 1)) =
      some (false, 0, none, none) := by
  decide

/-- At the call site in `egl_alert_render` the upload is the direct one and
returns true; the stride passed is `width * bpp`, so with 4-byte texels the
row stride in texels is the width, and the row length the direct upload sets
is also the plane's row stride there. -/
theorem alert_upload_tight (texture : EGL_Texture) (gl : GLContext) (bmp : LG_FontBitmap)
    (hb : bmp.bpp = 4) :
    ∃ r, egl_alert_render_upload texture gl bmp = some r ∧ r.ret = true ∧
      r.texture.streaming = false ∧ r.texture.planes 0 2 = r.texture.planes 0 0 := by
  obtain ⟨_, h2, _⟩ := packed_fields texture gl .EGL_PF_BGRA bmp.width bmp.height
    (bmp.width * bmp.bpp) false (Or.inl rfl)
  obtain ⟨_, _, _, _, h5, _⟩ := setup_fields texture gl .EGL_PF_BGRA bmp.width bmp.height
    (bmp.width * bmp.bpp) false 1 _ rfl
  have hs : (configured texture gl .EGL_PF_BGRA bmp.width bmp.height (bmp.width * bmp.bpp)
      false).streaming = false := h5
  have hu : egl_alert_render_upload texture gl bmp = some
      { ret := true
        texture := configured texture gl .EGL_PF_BGRA bmp.width bmp.height
          (bmp.width * bmp.bpp) false
        gl := (forLoop (configured texture gl .EGL_PF_BGRA bmp.width bmp.height
            (bmp.width * bmp.bpp) false).textureCount
          (update_plane (configured texture gl .EGL_PF_BGRA bmp.width bmp.height
            (bmp.width * bmp.bpp) false))
          (egl_texture_setup texture gl .EGL_PF_BGRA bmp.width bmp.height
            (bmp.width * bmp.bpp) false).gl).call (.glBindTexture 0) } := by
    show egl_texture_update (configured texture gl .EGL_PF_BGRA bmp.width bmp.height
      (bmp.width * bmp.bpp) false) _ _ = _
    unfold egl_texture_update
    rw [hs]
    rfl
  refine ⟨_, hu, rfl, hs, ?_⟩
  show (configured texture gl .EGL_PF_BGRA bmp.width bmp.height (bmp.width * bmp.bpp)
    false).planes 0 2 = (configured texture gl .EGL_PF_BGRA bmp.width bmp.height
    (bmp.width * bmp.bpp) false).planes 0 0
  rw [h2, hb]
  simp [set2]

end EGL
